import Mathlib

/-!
Verification of the offline-queue / cache-strategy subsystem of the
vuanhco website client (service worker `sw.js`, the enhanced
`FormHandler`, `SecurityUtils`, `RateLimiter`, and the legacy `Utils`
helpers).  Each JavaScript function relevant to the stated properties is
translated into an executable Lean definition; asynchronous platform
effects (fetch, the Cache storage, localStorage) are made explicit as
parameters and returned state.
-/

/- ### Generic character / string helpers used by the regex translations -/

/-- Characters matched by the JavaScript regex class `\s` (ECMAScript
WhiteSpace and LineTerminator code points). -/
def jsWhitespace (c : Char) : Bool :=
  c = ' ' || c = '\t' || c = '\n' || c = '\r' ||
  c.toNat = 0xb || c.toNat = 0xc || c.toNat = 0xa0 || c.toNat = 0x1680 ||
  (0x2000 ≤ c.toNat && c.toNat ≤ 0x200a) || c.toNat = 0x2028 || c.toNat = 0x2029 ||
  c.toNat = 0x202f || c.toNat = 0x205f || c.toNat = 0x3000 || c.toNat = 0xfeff

/-- Split a character list at every occurrence of `sep` (the separators are
dropped; `n` separators yield `n + 1` pieces). -/
def splitOnChar (sep : Char) : List Char → List (List Char)
  | [] => [[]]
  | c :: rest =>
    let r := splitOnChar sep rest
    if c = sep then [] :: r
    else
      match r with
      | [] => [[c]]
      | h :: t => (c :: h) :: t

/-- Does `hay` start with `needle`? -/
def startsWithChars : List Char → List Char → Bool
  | _, [] => true
  | [], _ :: _ => false
  | c :: cs, n :: ns => c = n && startsWithChars cs ns

/-- Does `hay` contain `needle` as a contiguous substring (JavaScript
`String.prototype.includes`)? -/
def containsChars : List Char → List Char → Bool
  | [], needle => needle.isEmpty
  | c :: rest, needle => startsWithChars (c :: rest) needle || containsChars rest needle

/-- ASCII lower-casing of a character list (JavaScript `toLowerCase` on the
ASCII inputs considered here). -/
def lowerAscii (cs : List Char) : List Char := cs.map Char.toLower

/- ### Utils (i18n.js) — the legacy validator actually called by
`FormHandler.validateFormData` -/

namespace Utils

/-- One maximal part of the `Utils.validateEmail` regex: `[^\s@]+`
(non-empty, no whitespace, no `@`). -/
def emailPartOk (part : List Char) : Bool :=
  !part.isEmpty && part.all (fun c => !jsWhitespace c && !(c = '@'))

/-- Translation of `Utils.validateEmail` (i18n.js): the test
`/^[^\s@]+@[^\s@]+\.[^\s@]+$/.test(email)`.  Since every class of the
pattern excludes `@`, the regex matches exactly the strings with one `@`,
a non-empty whitespace-free part before it, and after it a non-empty
whitespace-free part containing a dot that is neither its first nor its
last character (`[^\s@]+\.[^\s@]+`). -/
def validateEmail (email : String) : Bool :=
  match splitOnChar '@' email.toList with
  | [loc, dom] =>
      emailPartOk loc && emailPartOk dom && ((dom.drop 1).dropLast.contains '.')
  | _ => false

end Utils

/- ### SecurityUtils (security-utils.js) -/

namespace SecurityUtils

/-- Characters of the local-part class of the RFC 5322 regex in
`SecurityUtils.validateEmail`:
`[a-zA-Z0-9.!#$%&'*+/=?^_\x60\x7b|\x7d~-]` (the code points 39, 96, 123,
124 and 125 are the apostrophe, the backtick, and the brace/pipe/brace
characters of the class). -/
def localChar (c : Char) : Bool :=
  c.isAlphanum || c = '.' || c = '!' || c = '#' || c = '$' || c = '%' || c = '&' ||
  c = '*' || c = '+' || c = '/' || c = '=' || c = '?' || c = '^' || c = '_' ||
  c = '~' || c = '-' ||
  c.toNat = 39 || c.toNat = 96 || c.toNat = 123 || c.toNat = 124 || c.toNat = 125

/-- One domain label of the regex:
`[a-zA-Z0-9](?:[a-zA-Z0-9-]{0,61}[a-zA-Z0-9])?` — a single alphanumeric
character, or an alphanumeric first and last character around at most 61
alphanumeric-or-dash characters. -/
def labelOk : List Char → Bool
  | [] => false
  | [c] => c.isAlphanum
  | c :: rest =>
      c.isAlphanum && rest.length ≤ 62 &&
      (match rest.getLast? with
       | some d => d.isAlphanum
       | none => false) &&
      rest.dropLast.all (fun d => d.isAlphanum || d = '-')

/-- Substrings whose presence (case-insensitively) makes
`SecurityUtils.validateEmail` reject. -/
def dangerousStr : List String :=
  ["javascript:", "data:", "vbscript:", "<script", "onerror", "onload", "%00", "\x00"]

/-- Translation of `SecurityUtils.validateEmail`: empty/non-string
rejected, length capped at 254, then the RFC 5322 regex (one `@`; a local
part of `localChar`s; a domain that is dot-separated `labelOk` labels),
then the dangerous-substring scan on the lower-cased input. -/
def validateEmail (email : String) : Bool :=
  if email = "" then false
  else if 254 < email.length then false
  else
    let regexOk :=
      match splitOnChar '@' email.toList with
      | [loc, dom] =>
          (!loc.isEmpty && loc.all localChar) && (splitOnChar '.' dom).all labelOk
      | _ => false
    if regexOk = false then false
    else
      let lower := lowerAscii email.toList
      if dangerousStr.any (fun p => containsChars lower p.toList) then false
      else true

end SecurityUtils

/- ### RateLimiter (security-utils.js) -/

/-- Return object of `RateLimiter.checkLimit`:
`{allowed: boolean, waitTime: number}` (seconds to wait). -/
structure LimitResult where
  allowed : Bool
  waitTime : Int
deriving Repr, DecidableEq

namespace RateLimiter

/-- Translation of `RateLimiter.checkLimit` for one key.  The mutable
array `this.attempts[key]` is threaded explicitly: the result pairs the
returned object with the updated timestamp list.  `Date.now()` is the
explicit argument `now`.  The JavaScript
`Math.ceil((windowMs - (now - oldestAttempt)) / 1000)` equals
`(windowMs - (now - oldest) + 999) / 1000` because the numerator is
positive for every timestamp kept by the window filter.  (For
`maxAttempts = 0` with no recent attempts, JavaScript `Math.min()` of no
arguments is `Infinity`; that branch is unreachable for the positive
`maxAttempts` used by the program and is modelled with `oldest = 0`.) -/
def checkLimit (attempts : List Int) (maxAttempts : Nat) (windowMs now : Int) :
    LimitResult × List Int :=
  let recent := attempts.filter (fun t => decide (now - t < windowMs))
  if maxAttempts ≤ recent.length then
    let oldest : Int :=
      match recent with
      | [] => 0
      | h :: t => t.foldl min h
    ({ allowed := false, waitTime := (windowMs - (now - oldest) + 999) / 1000 }, recent)
  else
    ({ allowed := true, waitTime := 0 }, recent ++ [now])

end RateLimiter

/- ### FormHandler (form-handler.js) — validation -/

/-- Sanitized field values returned by `FormHandler.extractFormData`
(every field a string; `phone` optional as the empty string). -/
structure FormData where
  name : String
  email : String
  phone : String
  product : String
  message : String
deriving Repr, DecidableEq

/-- Return object of `FormHandler.validateFormData`:
`{valid, message, fields}`.  For messages produced through `i18n.t` the
key path stands in for the looked-up text (the specified fallback
behavior of `t`); the claims below never depend on message text. -/
structure ValidationResult where
  valid : Bool
  message : String
  fields : List String
deriving Repr, DecidableEq

/-- Character class of the phone regex `/^[\d\s\-\+\(\)]+$/` in
`FormHandler.validateFormData`. -/
def phoneChar (c : Char) : Bool :=
  c.isDigit || jsWhitespace c || c = '-' || c = '+' || c = '(' || c = ')'

/-- Test of the phone regex: a non-empty string of `phoneChar`s. -/
def phoneRegexTest (s : String) : Bool :=
  !s.isEmpty && s.toList.all phoneChar

/-- The eight three-fold concatenations of `http://` and `https://`.  The
spam pattern `/(?:https?:\/\/){3,}/i` matches a string exactly when one of
these appears in it (any match of three or more adjacent repetitions
begins with three adjacent repetitions). -/
def urlTriples : List String :=
  ["http://http://http://",
   "http://http://https://",
   "http://https://http://",
   "http://https://https://",
   "https://http://http://",
   "https://http://https://",
   "https://https://http://",
   "https://https://https://"]

/-- Test of the first spam pattern `/(?:https?:\/\/){3,}/gi`
(three or more back-to-back URL schemes). -/
def multipleUrls (s : String) : Bool :=
  let lower := lowerAscii s.toList
  urlTriples.any (fun p => containsChars lower p.toList)

/-- Test of the second spam pattern `/(?:viagra|cialis|casino|lottery)/gi`
(case-insensitive keyword search). -/
def spamKeyword (s : String) : Bool :=
  let lower := lowerAscii s.toList
  ["viagra", "cialis", "casino", "lottery"].any (fun p => containsChars lower p.toList)

/-- Line terminators, which the `.` of a JavaScript regex never matches. -/
def isLineTerminator (c : Char) : Bool :=
  c = '\n' || c = '\r' || c.toNat = 0x2028 || c.toNat = 0x2029

/-- Does a run of characters case-insensitively equal to `c`, already `k`
long, extend to total length at least 21 at the front of the list? -/
def runReaches (c : Char) (k : Nat) : List Char → Bool
  | [] => 21 ≤ k
  | d :: r => if d.toLower = c.toLower then runReaches c (k + 1) r else 21 ≤ k

/-- Test of the third spam pattern `/(.)\1{20,}/gi`: some non-terminator
character followed by at least 20 more copies of itself (the `i` flag
canonicalizes case, modelled by ASCII lower-casing). -/
def repeatedRun : List Char → Bool
  | [] => false
  | c :: rest => (!isLineTerminator c && runReaches c 1 rest) || repeatedRun rest

/-- The spam-pattern loop of `FormHandler.validateFormData`: each pattern
is tested against the message and then the name; every hit returns the
same result, so the loop reduces to this disjunction. -/
def spamPatternsTest (data : FormData) : Bool :=
  (multipleUrls data.message || multipleUrls data.name) ||
  (spamKeyword data.message || spamKeyword data.name) ||
  (repeatedRun data.message.toList || repeatedRun data.name.toList)

namespace FormHandler

/-- Continuation of `FormHandler.validateFormData` after the name and
email-format checks (the source is one function with early returns; it is
split here only because the email branch rejoins the same tail):
email-length cap, the optional phone checks, the message checks, the spam
loop, and finally the accumulated required-field report. -/
def validateRest (data : FormData) (invalidFields : List String) : ValidationResult :=
  if 254 < data.email.length then
    { valid := false, message := "Email is too long", fields := ["email"] }
  else if data.phone ≠ "" ∧ phoneRegexTest data.phone = false then
    { valid := false, message := "Phone number contains invalid characters", fields := ["phone"] }
  else if data.phone ≠ "" ∧ 20 < data.phone.length then
    { valid := false, message := "Phone number is too long", fields := ["phone"] }
  else if data.message = "" ∨ data.message.length < 10 then
    { valid := false, message := "contact.form.errorMessage", fields := ["message"] }
  else if 5000 < data.message.length then
    { valid := false, message := "Message is too long (max 5000 characters)", fields := ["message"] }
  else if spamPatternsTest data = true then
    { valid := false, message := "Message appears to be spam", fields := [] }
  else if invalidFields ≠ [] then
    { valid := false, message := "contact.form.errorFields", fields := invalidFields }
  else
    { valid := true, message := "", fields := [] }

/-- Translation of `FormHandler.validateFormData`.  A name that is falsy
or shorter than 2 characters is pushed onto `invalidFields`; a name over
100 characters returns immediately; an empty email is pushed onto
`invalidFields`, a non-empty one failing `Utils.validateEmail` returns
immediately; the remaining checks are `validateRest`. -/
def validateFormData (data : FormData) : ValidationResult :=
  let invalidFields : List String :=
    if data.name = "" ∨ data.name.length < 2 then ["name"] else []
  if 100 < data.name.length then
    { valid := false, message := "Name is too long (max 100 characters)", fields := ["name"] }
  else if data.email = "" then
    validateRest data (invalidFields ++ ["email"])
  else if Utils.validateEmail data.email = false then
    { valid := false, message := "contact.form.errorEmail", fields := ["email"] }
  else
    validateRest data invalidFields

end FormHandler

/- ### FormHandler — offline queue state -/

/-- A pending submission: the sanitized form fields spread together with
`timestamp: Date.now()`, the CSRF token, the analytics session id and the
current language (step 5 of `FormHandler.handleSubmit`). -/
structure Submission where
  name : String
  email : String
  phone : String
  product : String
  message : String
  timestamp : Int
  csrfToken : String
  sessionId : String
  language : String
deriving Repr, DecidableEq

/-- Build the submission object of `handleSubmit` step 5 from the
extracted form data and the ambient values. -/
def mkSubmission (d : FormData) (ts : Int) (tok sid lang : String) : Submission :=
  { name := d.name, email := d.email, phone := d.phone, product := d.product,
    message := d.message, timestamp := ts, csrfToken := tok, sessionId := sid,
    language := lang }

/-- The queue state of `FormHandler`: the in-memory array
`this.pendingSubmissions` and the JSON sequence persisted in
`localStorage` under `vuanh_pending_submissions` (modelled decoded; the
storage writes of `savePendingSubmissions` are modelled as succeeding —
on a storage exception the JavaScript logs and leaves the persisted value
unchanged). -/
structure HandlerState where
  pending : List Submission
  stored : List Submission
deriving Repr, DecidableEq

namespace FormHandler

/-- Translation of `FormHandler.queueOfflineSubmission`: push onto the
in-memory array, then `savePendingSubmissions` persists the whole array
(the badge update is a DOM effect with no queue state). -/
def queueOfflineSubmission (st : HandlerState) (s : Submission) : HandlerState :=
  let pending := st.pending ++ [s]
  { pending := pending, stored := pending }

/-- Outcome of `JSON.parse` on the stored string: a decoded submission
array, or a thrown `SyntaxError`. -/
inductive ParseResult where
  | ok (subs : List Submission)
  | err
deriving Repr, DecidableEq

/-- Translation of `FormHandler.loadPendingSubmissions`:
`localStorage.getItem` yields `saved` (`none` for an absent key), the
`JSON.parse` behavior is the `parse` argument, and `current` is the
in-memory queue before the call.  An absent key leaves the queue as it
is; a parse exception is caught and resets the queue to `[]`.  The
function is total: no exception escapes. -/
def loadPendingSubmissions (saved : Option String) (parse : String → ParseResult)
    (current : List Submission) : List Submission :=
  match saved with
  | none => current
  | some s =>
    match parse s with
    | ParseResult.ok subs => subs
    | ParseResult.err => []

/-- Translation of `FormHandler.handleSubmit`, with the platform effects
explicit: `limiter` is the rate-limiter timestamp list for
`contact-form`, `now` is `Date.now()`, `data` is the value of
`extractFormData(form)`, `tok`/`sid`/`lang` are the CSRF token, analytics
session id and current language, `deliverySucceeds` tells whether
`sendSubmission` resolves to `true` (it otherwise throws, as does the
explicit `throw` on a falsy result), and `onLine` is
`navigator.onLine` at the catch.  The result pairs the queue state after
the call with the updated limiter state; message display, field
highlighting, analytics and form reset are DOM effects with no queue
state. -/
def handleSubmit (st : HandlerState) (limiter : List Int) (now : Int)
    (data : FormData) (tok sid lang : String) (deliverySucceeds onLine : Bool) :
    HandlerState × List Int :=
  let rl := RateLimiter.checkLimit limiter 3 300000 now
  if rl.1.allowed = false then (st, rl.2)
  else if (validateFormData data).valid = false then (st, rl.2)
  else
    let submission := mkSubmission data now tok sid lang
    if deliverySucceeds then (st, rl.2)
    else if onLine = false then (queueOfflineSubmission st submission, rl.2)
    else (st, rl.2)

/-- Translation of `FormHandler.sendPendingSubmissions`: an early return
on an empty queue; otherwise each queued submission is awaited in turn
(`sendOk` tells whether its delivery attempt succeeds — a resolved `true`
— or fails by throwing or resolving falsy), the failures are kept in
order, and the retained list is persisted.  The second component returns
the submissions in the order attempted. -/
def sendPendingSubmissions (st : HandlerState) (sendOk : Submission → Bool) :
    HandlerState × List Submission :=
  if st.pending = [] then (st, [])
  else
    let results := st.pending.map (fun s => (s, sendOk s))
    let remaining := (results.filter (fun r => !r.2)).map (fun r => r.1)
    ({ pending := remaining, stored := remaining }, results.map (fun r => r.1))

end FormHandler

/- ### Service worker (sw.js) -/

/-- Cache generation baked into `sw.js`. -/
def CACHE_NAME : String := "vuanh-v1.0.0"

/-- Fixed runtime cache name of `sw.js`. -/
def RUNTIME_CACHE : String := "vuanh-runtime"

/-- The `PRECACHE_URLS` manifest of `sw.js`. -/
def PRECACHE_URLS : List String :=
  ["/",
   "/index.html",
   "/style.css",
   "/enhancements.css",
   "/script.js",
   "/i18n.js",
   "/analytics.js",
   "/form-handler.js",
   "/pwa-prompt.js",
   "/security-utils.js",
   "/manifest.json",
   "/logos/vuanh-logo.png",
   "/logos/vuanh-logo1.png",
   "/i18n/en.json",
   "/i18n/vi.json",
   "/i18n/cn.json",
   "https://fonts.googleapis.com/css2?family=Montserrat:wght@400;500;700&display=swap"]

/-- Observable outcome of the `install` event handler: whether the
promise handed to `event.waitUntil` rejects, whether the new generation
cache holds the precached assets, and whether `self.skipWaiting()` was
requested. -/
structure InstallOutcome where
  waitUntilRejected : Bool
  cachePopulated : Bool
  skipWaitingCalled : Bool
deriving Repr, DecidableEq

/-- Translation of the `install` listener of `sw.js`.  `fetchOk` tells
which manifest URL fetches succeed.  `cache.addAll` stores all entries
when every fetch succeeds and rejects storing nothing otherwise
(the Cache API batch update is all-or-nothing).  On success the chain
continues with `self.skipWaiting()`; on failure the final
`.catch` handler logs the error, so the promise given to
`event.waitUntil` resolves either way. -/
def installEvent (fetchOk : String → Bool) : InstallOutcome :=
  if PRECACHE_URLS.all fetchOk then
    { waitUntilRejected := false, cachePopulated := true, skipWaitingCalled := true }
  else
    { waitUntilRejected := false, cachePopulated := false, skipWaitingCalled := false }

/-- `caches.delete(name)`: remove a named cache from the set of cache
stores (modelled as a list of names). -/
def cachesDelete (store : List String) (name : String) : List String :=
  store.filter (fun n => !(n == name))

/-- Translation of the `activate` listener of `sw.js`: `caches.keys()`
enumerates the existing cache names, and every name that is neither
`CACHE_NAME` nor `RUNTIME_CACHE` is deleted (then `clients.claim()` runs,
which touches no cache state). -/
def activateEvent (store : List String) : List String :=
  store.foldl
    (fun acc name =>
      if name ≠ CACHE_NAME ∧ name ≠ RUNTIME_CACHE then cachesDelete acc name else acc)
    store

/-- The slice of a Fetch API `Response` observed by the claims: status,
status text, the `Content-Type` header and the body text.  The
constructor `new Response(body, {headers: ...})` defaults the status to
200 and the status text to the empty string. -/
structure Response where
  status : Nat
  statusText : String
  contentType : Option String
  body : String
deriving Repr, DecidableEq

/-- `response.ok`: status in the range 200–299. -/
def Response.ok (r : Response) : Bool := 200 ≤ r.status && r.status ≤ 299

/-- Translation of `createOfflinePage` in `sw.js`: the template literal
returned verbatim (brace, apostrophe and quote characters written as
escapes). -/
def createOfflinePage : String := "
<!DOCTYPE html>
<html lang=\"en\">
<head>
  <meta charset=\"UTF-8\">
  <meta name=\"viewport\" content=\"width=device-width, initial-scale=1.0\">
  <title>Offline - Vu Anh Industrial Equipment</title>
  <style>
    * \x7b margin: 0; padding: 0; box-sizing: border-box; \x7d
    body \x7b
      font-family: -apple-system, BlinkMacSystemFont, \x27Segoe UI\x27, sans-serif;
      display: flex;
      align-items: center;
      justify-content: center;
      min-height: 100vh;
      background: linear-gradient(135deg, #414042 0%, #2c2c2e 100%);
      color: #ffffff;
      text-align: center;
      padding: 2rem;
    \x7d
    .offline-container \x7b
      max-width: 500px;
    \x7d
    .offline-icon \x7b
      font-size: 5rem;
      margin-bottom: 1rem;
      opacity: 0.8;
    \x7d
    h1 \x7b
      font-size: 2rem;
      margin-bottom: 1rem;
      color: #f1bc31;
    \x7d
    p \x7b
      font-size: 1.1rem;
      line-height: 1.6;
      margin-bottom: 2rem;
      opacity: 0.9;
    \x7d
    .retry-btn \x7b
      background: #f1bc31;
      color: #414042;
      padding: 1rem 2rem;
      border: none;
      border-radius: 50px;
      font-size: 1rem;
      font-weight: 700;
      cursor: pointer;
      text-decoration: none;
      display: inline-block;
      transition: transform 0.3s;
    \x7d
    .retry-btn:hover \x7b
      transform: translateY(-3px);
    \x7d
  </style>
</head>
<body>
  <div class=\"offline-container\">
    <div class=\"offline-icon\">📡</div>
    <h1>You\x27re Offline</h1>
    <p>It looks like you\x27ve lost your internet connection. Please check your network and try again.</p>
    <button class=\"retry-btn\" onclick=\"window.location.reload()\">Retry</button>
  </div>
</body>
</html>
  "

/-- The manual retry control contained in the synthetic offline page. -/
def retryControl : String :=
  "<button class=\"retry-btn\" onclick=\"window.location.reload()\">Retry</button>"

/-- Result of `handleNavigationRequest`: the returned response, and the
entry written to the runtime cache when the network response was `ok`. -/
structure NavOutcome where
  response : Response
  runtimePut : Option Response
deriving Repr, DecidableEq

/-- Translation of `handleNavigationRequest` in `sw.js`.  `network` is the
result of `fetch(request)` (`none` when it throws), `cached` is
`caches.match(request)` and `cachedIndex` is `caches.match('/index.html')`.
Network first (cloning an `ok` response into the runtime cache); on
network failure the cached entry, then the cached shell, then the inline
offline page built by `createOfflinePage` wrapped in a `Response` with a
`text/html` content type and the default 200 status. -/
def handleNavigationRequest (network cached cachedIndex : Option Response) : NavOutcome :=
  match network with
  | some resp =>
      { response := resp, runtimePut := if resp.ok then some resp else none }
  | none =>
    match cached with
    | some r => { response := r, runtimePut := none }
    | none =>
      match cachedIndex with
      | some r => { response := r, runtimePut := none }
      | none =>
        { response := { status := 200, statusText := "", contentType := some "text/html",
                        body := createOfflinePage },
          runtimePut := none }

/- ### Claim theorems -/

set_option maxRecDepth 100000 in
/-- C8: the email validation reachable from `FormHandler.handleSubmit` is
`validateFormData`, which delegates to the loose `Utils.validateEmail`
and a separate 254-character cap.  `SecurityUtils.validateEmail` — which
the stray fragment in `extractFormData` says the validation should use —
rejects `user@@x.com`, the script-tagged address and over-long strings
and accepts `a.b+tag@sub.example.co`, exactly as the claim states; but
the validator actually invoked accepts the script-tagged address, so a
form whose other fields are valid passes validation with that email. -/
theorem email_validation_divergence :
    SecurityUtils.validateEmail "user@@x.com" = false ∧
    SecurityUtils.validateEmail "\"<script>@x.com\"" = false ∧
    SecurityUtils.validateEmail (String.mk (List.replicate 250 'a') ++ "@b.co") = false ∧
    SecurityUtils.validateEmail "a.b+tag@sub.example.co" = true ∧
    Utils.validateEmail "user@@x.com" = false ∧
    Utils.validateEmail "a.b+tag@sub.example.co" = true ∧
    Utils.validateEmail "\"<script>@x.com\"" = true ∧
    (FormHandler.validateFormData
      { name := "John Doe", email := "\"<script>@x.com\"", phone := "",
        product := "pumps", message := "Please send a quotation." }).valid = true := by
  decide

/-- C9: with the name, email and phone fields satisfying their rules, a
9-character message is rejected reporting the `message` field, a
10-character non-spam message is accepted, and a message longer than 5000
characters is rejected. -/
theorem validateFormData_message_length (data : FormData)
    (hn1 : 2 ≤ data.name.length) (hn2 : data.name.length ≤ 100)
    (he1 : data.email ≠ "") (he2 : Utils.validateEmail data.email = true)
    (he3 : data.email.length ≤ 254) (hp : data.phone = "") :
    (data.message.length = 9 →
      FormHandler.validateFormData data =
        { valid := false, message := "contact.form.errorMessage", fields := ["message"] }) ∧
    (data.message.length = 10 → spamPatternsTest data = false →
      FormHandler.validateFormData data = { valid := true, message := "", fields := [] }) ∧
    (5000 < data.message.length →
      FormHandler.validateFormData data =
        { valid := false, message := "Message is too long (max 5000 characters)",
          fields := ["message"] }) := by
  have hne : data.name ≠ "" := by
    intro h
    rw [h] at hn1
    exact absurd hn1 (by decide)
  refine ⟨?_, ?_, ?_⟩
  · intro hm
    simp [FormHandler.validateFormData, FormHandler.validateRest, hne, he1, he2, he3, hp, hm,
      show ¬(100 < data.name.length) by omega, show ¬(data.name.length < 2) by omega,
      show ¬(254 < data.email.length) by omega]
  · intro hm hs
    have hmne : data.message ≠ "" := by
      intro h
      rw [h] at hm
      exact absurd hm (by decide)
    simp [FormHandler.validateFormData, FormHandler.validateRest, hne, he1, he2, he3, hp, hs,
      hmne, show ¬(100 < data.name.length) by omega, show ¬(data.name.length < 2) by omega,
      show ¬(254 < data.email.length) by omega, show ¬(data.message.length < 10) by omega,
      show ¬(5000 < data.message.length) by omega]
  · intro hm
    have hmne : data.message ≠ "" := by
      intro h
      rw [h] at hm
      exact absurd hm (by decide)
    simp [FormHandler.validateFormData, FormHandler.validateRest, hne, he1, he2, he3, hp,
      hmne, show ¬(100 < data.name.length) by omega, show ¬(data.name.length < 2) by omega,
      show ¬(254 < data.email.length) by omega, show ¬(data.message.length < 10) by omega, hm]

/-- C9 witness: the boundary evaluated at concrete inputs. -/
theorem validateFormData_message_length_witness :
    FormHandler.validateFormData
        { name := "John Doe", email := "john@example.com", phone := "",
          product := "pumps", message := "123456789" } =
      { valid := false, message := "contact.form.errorMessage", fields := ["message"] } ∧
    FormHandler.validateFormData
        { name := "John Doe", email := "john@example.com", phone := "",
          product := "pumps", message := "1234567890" } =
      { valid := true, message := "", fields := [] } ∧
    FormHandler.validateFormData
        { name := "John Doe", email := "john@example.com", phone := "",
          product := "pumps", message := String.mk (List.replicate 5001 'm') } =
      { valid := false, message := "Message is too long (max 5000 characters)",
        fields := ["message"] } := by
  refine ⟨(validateFormData_message_length _ (by decide) (by decide) (by decide) (by decide)
      (by decide) (by decide)).1 (by decide),
    (validateFormData_message_length _ (by decide) (by decide) (by decide) (by decide)
      (by decide) (by decide)).2.1 (by decide) (by decide),
    (validateFormData_message_length _ (by decide) (by decide) (by decide) (by decide)
      (by decide) (by decide)).2.2
      (by rw [String.length_mk, List.length_replicate]; decide)⟩

/-- C7 counterexample: the name `"A"` is non-empty and at most 100
characters, every other field satisfies its rules, yet `validateFormData`
rejects the input and reports the `name` field — the source requires at
least 2 characters, not merely non-emptiness. -/
theorem validateFormData_short_name_rejected :
    FormHandler.validateFormData
        { name := "A", email := "john@example.com", phone := "",
          product := "pumps", message := "Please send a quotation." } =
      { valid := false, message := "contact.form.errorFields", fields := ["name"] } := by
  decide

/-- C7 (amended): with the other fields satisfying their rules, a name of
2 to 100 characters is accepted (no field reported) provided the spam
patterns do not fire, a name shorter than 2 characters — the empty name
included — is rejected reporting the `name` field, and a name longer than
100 characters is rejected as too long. -/
theorem validateFormData_name_rules (data : FormData)
    (he1 : data.email ≠ "") (he2 : Utils.validateEmail data.email = true)
    (he3 : data.email.length ≤ 254) (hp : data.phone = "")
    (hm1 : 10 ≤ data.message.length) (hm2 : data.message.length ≤ 5000) :
    (2 ≤ data.name.length → data.name.length ≤ 100 → spamPatternsTest data = false →
      FormHandler.validateFormData data = { valid := true, message := "", fields := [] }) ∧
    (data.name.length < 2 → spamPatternsTest data = false →
      FormHandler.validateFormData data =
        { valid := false, message := "contact.form.errorFields", fields := ["name"] }) ∧
    (100 < data.name.length →
      FormHandler.validateFormData data =
        { valid := false, message := "Name is too long (max 100 characters)",
          fields := ["name"] }) := by
  have hmne : data.message ≠ "" := by
    intro h
    rw [h] at hm1
    exact absurd hm1 (by decide)
  refine ⟨?_, ?_, ?_⟩
  · intro hn1 hn2 hs
    have hne : data.name ≠ "" := by
      intro h
      rw [h] at hn1
      exact absurd hn1 (by decide)
    simp [FormHandler.validateFormData, FormHandler.validateRest, hne, he1, he2, he3, hp, hs,
      hmne, show ¬(100 < data.name.length) by omega, show ¬(data.name.length < 2) by omega,
      show ¬(254 < data.email.length) by omega, show ¬(data.message.length < 10) by omega,
      show ¬(5000 < data.message.length) by omega]
  · intro hn hs
    simp [FormHandler.validateFormData, FormHandler.validateRest, he1, he2, he3, hp, hs,
      hmne, show ¬(100 < data.name.length) by omega, hn,
      show ¬(254 < data.email.length) by omega, show ¬(data.message.length < 10) by omega,
      show ¬(5000 < data.message.length) by omega]
  · intro hn
    simp [FormHandler.validateFormData, hn]

/-- C7 witness: the name rules evaluated at concrete inputs. -/
theorem validateFormData_name_rules_witness :
    FormHandler.validateFormData
        { name := "Jo", email := "john@example.com", phone := "",
          product := "pumps", message := "Need a price list soon." } =
      { valid := true, message := "", fields := [] } ∧
    FormHandler.validateFormData
        { name := "", email := "john@example.com", phone := "",
          product := "pumps", message := "Need a price list soon." } =
      { valid := false, message := "contact.form.errorFields", fields := ["name"] } ∧
    FormHandler.validateFormData
        { name := String.mk (List.replicate 101 'N'), email := "john@example.com", phone := "",
          product := "pumps", message := "Need a price list soon." } =
      { valid := false, message := "Name is too long (max 100 characters)",
        fields := ["name"] } := by
  refine ⟨(validateFormData_name_rules _ (by decide) (by decide) (by decide) (by decide)
      (by decide) (by decide)).1 (by decide) (by decide) (by decide),
    (validateFormData_name_rules _ (by decide) (by decide) (by decide) (by decide)
      (by decide) (by decide)).2.1 (by decide) (by decide),
    (validateFormData_name_rules _ (by decide) (by decide) (by decide) (by decide)
      (by decide) (by decide)).2.2
      (by rw [String.length_mk, List.length_replicate]; decide)⟩

/-- C10: `loadPendingSubmissions` is a total function — no exception
escapes — and starting from the initial in-memory queue `[]`, an absent
stored value or one that fails to parse leaves the queue empty. -/
theorem loadPendingSubmissions_total_empty (saved : Option String)
    (parse : String → FormHandler.ParseResult)
    (h : ∀ s, saved = some s → parse s = FormHandler.ParseResult.err) :
    FormHandler.loadPendingSubmissions saved parse [] = [] := by
  cases saved with
  | none => rfl
  | some s => simp [FormHandler.loadPendingSubmissions, h s rfl]

/-- C10 witness: a stored value that is not valid JSON yields the empty
queue. -/
theorem loadPendingSubmissions_total_empty_witness :
    FormHandler.loadPendingSubmissions (some "]not json")
      (fun _ => FormHandler.ParseResult.err) [] = [] :=
  loadPendingSubmissions_total_empty (some "]not json")
    (fun _ => FormHandler.ParseResult.err) (fun _ _ => rfl)

/-- C1 counterexample: with the fetch of `/index.html` failing (so not
every manifest fetch succeeds), the promise passed to `event.waitUntil`
still resolves — the final `.catch` swallows the `cache.addAll`
rejection — so service-worker installation is not aborted, contradicting
the claim that the install promise rejects. -/
theorem install_counterexample :
    PRECACHE_URLS.all (fun u => u != "/index.html") = false ∧
    (installEvent (fun u => u != "/index.html")).waitUntilRejected = false := by
  decide

/-- C1 (amended): when any manifest fetch fails, the `.catch` handler
absorbs the error: the install promise resolves (installation is not
aborted), yet no partial precache is stored (`cache.addAll` is
all-or-nothing) and `skipWaiting` is never requested. -/
theorem install_failure_caught (fetchOk : String → Bool)
    (h : PRECACHE_URLS.all fetchOk = false) :
    installEvent fetchOk =
      { waitUntilRejected := false, cachePopulated := false, skipWaitingCalled := false } := by
  unfold installEvent
  simp [h]

/-- C1 witness: the amended install behavior at a concrete failing
fetch. -/
theorem install_failure_caught_witness :
    installEvent (fun u => u != "/index.html") =
      { waitUntilRejected := false, cachePopulated := false, skipWaitingCalled := false } :=
  install_failure_caught (fun u => u != "/index.html") (by decide)

/-- Applying the deletions of the activate handler for every name in
`names` to the store `acc`: a name survives exactly when it was in `acc`
and is not slated for deletion by some element of `names`. -/
theorem foldl_cachesDelete_mem (names : List String) (acc : List String) (n : String) :
    (n ∈ names.foldl
        (fun acc name =>
          if name ≠ CACHE_NAME ∧ name ≠ RUNTIME_CACHE then cachesDelete acc name else acc)
        acc) ↔
      (n ∈ acc ∧ (n ∈ names → n = CACHE_NAME ∨ n = RUNTIME_CACHE)) := by
  induction names generalizing acc with
  | nil => simp
  | cons a rest ih =>
    rw [List.foldl_cons, ih]
    by_cases ha : a ≠ CACHE_NAME ∧ a ≠ RUNTIME_CACHE
    · rw [if_pos ha]
      unfold cachesDelete
      simp only [List.mem_filter, Bool.not_eq_eq_eq_not, Bool.not_true, beq_eq_false_iff_ne,
        ne_eq, List.mem_cons]
      constructor
      · rintro ⟨⟨hmem, hne⟩, himp⟩
        exact ⟨hmem, fun hcase => hcase.elim (fun he => absurd he hne) himp⟩
      · rintro ⟨hmem, himp⟩
        by_cases hna : n = a
        · rcases himp (Or.inl hna) with hc | hc
          · exact absurd (hna ▸ hc) ha.1
          · exact absurd (hna ▸ hc) ha.2
        · exact ⟨⟨hmem, hna⟩, fun hr => himp (Or.inr hr)⟩
    · rw [if_neg ha]
      push_neg at ha
      constructor
      · rintro ⟨hmem, himp⟩
        refine ⟨hmem, fun hcase => ?_⟩
        rcases List.mem_cons.mp hcase with hna | hr
        · by_cases haC : a = CACHE_NAME
          · exact Or.inl (hna ▸ haC)
          · exact Or.inr (hna ▸ ha haC)
        · exact himp hr
      · rintro ⟨hmem, himp⟩
        exact ⟨hmem, fun hr => himp (List.mem_cons_of_mem a hr)⟩

/-- C4 counterexample: starting from a store that holds the current
generation and one stale generation but no runtime cache, activation
leaves only the current generation — the resulting set does not contain
`RUNTIME_CACHE`, so it is not "exactly the current generation and the
runtime cache" for every starting set. -/
theorem activate_counterexample :
    activateEvent ["vuanh-v1.0.0", "vuanh-old"] = ["vuanh-v1.0.0"] ∧
    ¬ RUNTIME_CACHE ∈ activateEvent ["vuanh-v1.0.0", "vuanh-old"] := by
  decide

/-- C4 (amended): after the activate step, a cache name exists exactly
when it existed before and matches the current generation or the runtime
cache — every other cache is deleted (before `clients.claim()` runs); in
particular at most the two expected stores remain, and both remain
whenever both existed. -/
theorem activateEvent_mem (store : List String) (n : String) :
    n ∈ activateEvent store ↔ (n ∈ store ∧ (n = CACHE_NAME ∨ n = RUNTIME_CACHE)) := by
  unfold activateEvent
  rw [foldl_cachesDelete_mem]
  constructor
  · rintro ⟨hmem, himp⟩
    exact ⟨hmem, himp hmem⟩
  · rintro ⟨hmem, hor⟩
    exact ⟨hmem, fun _ => hor⟩

set_option maxRecDepth 200000 in
/-- C5: on a failed network fetch, a navigation request falls back to the
cached entry for the request, then to the cached `/index.html` shell, and
when both are absent it returns the synthetic offline page — a `Response`
with status 200 and `Content-Type: text/html` whose body contains the
manual retry button, not a generic error response. -/
theorem handleNavigationRequest_offline_fallback (cached cachedIndex : Option Response) :
    (handleNavigationRequest none cached cachedIndex).response =
      (match cached, cachedIndex with
       | some r, _ => r
       | none, some r => r
       | none, none =>
         { status := 200, statusText := "", contentType := some "text/html",
           body := createOfflinePage }) ∧
    (handleNavigationRequest none none none).response.status = 200 ∧
    (handleNavigationRequest none none none).response.contentType = some "text/html" ∧
    containsChars (handleNavigationRequest none none none).response.body.toList
      retryControl.toList = true := by
  refine ⟨?_, rfl, rfl, ?_⟩
  · cases cached <;> cases cachedIndex <;> rfl
  · decide

/-- C6: for the `contact-form` parameters `maxAttempts = 3` and
`windowMs = 300000`, three attempts inside the window are allowed (each
recording its timestamp), a fourth attempt inside the window is rejected
with a strictly positive `waitTime` (and records nothing), and an attempt
made once the window has elapsed since the earliest recorded attempt is
allowed again. -/
theorem checkLimit_contact_form_window (t1 t2 t3 t4 t5 : Int)
    (h12 : t1 ≤ t2) (h23 : t2 ≤ t3) (h34 : t3 ≤ t4) (_h45 : t4 ≤ t5)
    (hin : t4 - t1 < 300000) (hout : 300000 ≤ t5 - t1) :
    (RateLimiter.checkLimit [] 3 300000 t1).1.allowed = true ∧
    (RateLimiter.checkLimit [] 3 300000 t1).2 = [t1] ∧
    (RateLimiter.checkLimit [t1] 3 300000 t2).1.allowed = true ∧
    (RateLimiter.checkLimit [t1] 3 300000 t2).2 = [t1, t2] ∧
    (RateLimiter.checkLimit [t1, t2] 3 300000 t3).1.allowed = true ∧
    (RateLimiter.checkLimit [t1, t2] 3 300000 t3).2 = [t1, t2, t3] ∧
    (RateLimiter.checkLimit [t1, t2, t3] 3 300000 t4).1.allowed = false ∧
    0 < (RateLimiter.checkLimit [t1, t2, t3] 3 300000 t4).1.waitTime ∧
    (RateLimiter.checkLimit [t1, t2, t3] 3 300000 t4).2 = [t1, t2, t3] ∧
    (RateLimiter.checkLimit [t1, t2, t3] 3 300000 t5).1.allowed = true := by
  have e4 : RateLimiter.checkLimit [t1, t2, t3] 3 300000 t4 =
      ({ allowed := false,
         waitTime := (300000 - (t4 - min (min t1 t2) t3) + 999) / 1000 }, [t1, t2, t3]) := by
    simp [RateLimiter.checkLimit, show t4 - t1 < 300000 by omega,
      show t4 - t2 < 300000 by omega, show t4 - t3 < 300000 by omega]
  refine ⟨?_, ?_, ?_, ?_, ?_, ?_, ?_, ?_, ?_, ?_⟩
  · simp [RateLimiter.checkLimit]
  · simp [RateLimiter.checkLimit]
  · simp [RateLimiter.checkLimit, show t2 - t1 < 300000 by omega]
  · simp [RateLimiter.checkLimit, show t2 - t1 < 300000 by omega]
  · simp [RateLimiter.checkLimit, show t3 - t1 < 300000 by omega,
      show t3 - t2 < 300000 by omega]
  · simp [RateLimiter.checkLimit, show t3 - t1 < 300000 by omega,
      show t3 - t2 < 300000 by omega]
  · rw [e4]
  · rw [e4]
    show 0 < (300000 - (t4 - min (min t1 t2) t3) + 999) / 1000
    omega
  · rw [e4]
  · by_cases h2 : t5 - t2 < 300000 <;> by_cases h3 : t5 - t3 < 300000 <;>
      simp [RateLimiter.checkLimit, show ¬(t5 - t1 < 300000) by omega, h2, h3]

/-- C6 witness: the window behavior at the concrete instants 0, 1, 2, 3
and 300000. -/
theorem checkLimit_contact_form_window_witness :
    (RateLimiter.checkLimit [] 3 300000 0).1.allowed = true ∧
    (RateLimiter.checkLimit [] 3 300000 0).2 = [0] ∧
    (RateLimiter.checkLimit [0] 3 300000 1).1.allowed = true ∧
    (RateLimiter.checkLimit [0] 3 300000 1).2 = [0, 1] ∧
    (RateLimiter.checkLimit [0, 1] 3 300000 2).1.allowed = true ∧
    (RateLimiter.checkLimit [0, 1] 3 300000 2).2 = [0, 1, 2] ∧
    (RateLimiter.checkLimit [0, 1, 2] 3 300000 3).1.allowed = false ∧
    0 < (RateLimiter.checkLimit [0, 1, 2] 3 300000 3).1.waitTime ∧
    (RateLimiter.checkLimit [0, 1, 2] 3 300000 3).2 = [0, 1, 2] ∧
    (RateLimiter.checkLimit [0, 1, 2] 3 300000 300000).1.allowed = true :=
  checkLimit_contact_form_window 0 1 2 3 300000 (by decide) (by decide) (by decide)
    (by decide) (by decide) (by decide)

/-- Sanitized form data used by the concrete queue scenarios. -/
def sampleForm : FormData :=
  { name := "John Doe", email := "john@example.com", phone := "",
    product := "pumps", message := "Please send a quotation." }

/-- C2: the persisted queue after `handleSubmit` differs from its prior
value exactly when a delivery was attempted (rate limit passed,
validation passed) and failed while `navigator.onLine` is false; in that
case the submission is appended exactly once, and in every other case
(rate-limited, invalid, delivered, or failed while online) the persisted
queue is unchanged. -/
theorem handleSubmit_stored_change (st : HandlerState) (limiter : List Int) (now : Int)
    (data : FormData) (tok sid lang : String) (deliverySucceeds onLine : Bool)
    (hp : st.stored = st.pending) :
    ((FormHandler.handleSubmit st limiter now data tok sid lang deliverySucceeds
          onLine).1.stored ≠ st.stored ↔
      ((RateLimiter.checkLimit limiter 3 300000 now).1.allowed = true ∧
        (FormHandler.validateFormData data).valid = true ∧
        deliverySucceeds = false ∧ onLine = false)) ∧
    (((RateLimiter.checkLimit limiter 3 300000 now).1.allowed = true ∧
        (FormHandler.validateFormData data).valid = true ∧
        deliverySucceeds = false ∧ onLine = false) →
      (FormHandler.handleSubmit st limiter now data tok sid lang deliverySucceeds
          onLine).1.stored = st.stored ++ [mkSubmission data now tok sid lang]) := by
  unfold FormHandler.handleSubmit
  by_cases hA : (RateLimiter.checkLimit limiter 3 300000 now).1.allowed = false
  · simp [hA]
  · have hA2 : (RateLimiter.checkLimit limiter 3 300000 now).1.allowed = true := by
      revert hA
      cases (RateLimiter.checkLimit limiter 3 300000 now).1.allowed <;> simp
    by_cases hV : (FormHandler.validateFormData data).valid = false
    · simp [hA2, hV]
    · have hV2 : (FormHandler.validateFormData data).valid = true := by
        revert hV
        cases (FormHandler.validateFormData data).valid <;> simp
      cases deliverySucceeds with
      | true => simp [hA2, hV2]
      | false =>
        cases onLine with
        | true => simp [hA2, hV2]
        | false => simp [hA2, hV2, FormHandler.queueOfflineSubmission, hp]

/-- C2 witness: an offline delivery failure of a valid submission appends
it once to the previously empty persisted queue. -/
theorem handleSubmit_stored_change_witness :
    ((FormHandler.handleSubmit ⟨[], []⟩ [] 0 sampleForm "tok" "sid" "en"
          false false).1.stored ≠ [] ↔
      ((RateLimiter.checkLimit [] 3 300000 0).1.allowed = true ∧
        (FormHandler.validateFormData sampleForm).valid = true ∧
        false = false ∧ false = false)) ∧
    (((RateLimiter.checkLimit [] 3 300000 0).1.allowed = true ∧
        (FormHandler.validateFormData sampleForm).valid = true ∧
        false = false ∧ false = false) →
      (FormHandler.handleSubmit ⟨[], []⟩ [] 0 sampleForm "tok" "sid" "en"
          false false).1.stored = [mkSubmission sampleForm 0 "tok" "sid" "en"]) :=
  handleSubmit_stored_change ⟨[], []⟩ [] 0 sampleForm "tok" "sid" "en" false false rfl

/-- Attempting delivery for every element of the queue and keeping the
failures: mapping, filtering on the recorded success bit and projecting
back is the same as filtering the queue on failure. -/
theorem map_filter_attempts (sendOk : Submission → Bool) (l : List Submission) :
    ((l.map (fun s => (s, sendOk s))).filter (fun r => !r.2)).map (fun r => r.1) =
      l.filter (fun s => !(sendOk s)) := by
  induction l with
  | nil => rfl
  | cons a t ih =>
    by_cases h : sendOk a
    · simp [h, ih]
    · simp [h, ih]

/-- Recording the success bit for every queued submission and projecting
it away returns the queue. -/
theorem map_pair_fst (sendOk : Submission → Bool) (l : List Submission) :
    (l.map (fun s => (s, sendOk s))).map (fun r => r.1) = l := by
  induction l with
  | nil => rfl
  | cons a t ih => simp [ih]

/-- C3: `sendPendingSubmissions` attempts every queued submission exactly
once in FIFO order (the attempt sequence is the queue itself), and both
the in-memory and the persisted queue afterwards are exactly the
still-failing submissions, unchanged, in their original relative
order. -/
theorem sendPendingSubmissions_partition (st : HandlerState) (sendOk : Submission → Bool)
    (hp : st.stored = st.pending) :
    (FormHandler.sendPendingSubmissions st sendOk).1.pending =
        st.pending.filter (fun s => !(sendOk s)) ∧
    (FormHandler.sendPendingSubmissions st sendOk).1.stored =
        st.pending.filter (fun s => !(sendOk s)) ∧
    (FormHandler.sendPendingSubmissions st sendOk).2 = st.pending := by
  unfold FormHandler.sendPendingSubmissions
  by_cases hE : st.pending = []
  · simp [hE, hp]
  · simp only [hE, if_false]
    refine ⟨map_filter_attempts sendOk st.pending, map_filter_attempts sendOk st.pending, ?_⟩
    exact map_pair_fst sendOk st.pending

/-- First queued submission of the C3 replay scenario. -/
def subA : Submission :=
  { name := "Alice", email := "alice@example.com", phone := "", product := "pumps",
    message := "First pending message.", timestamp := 1, csrfToken := "ta",
    sessionId := "sa", language := "en" }

/-- Second queued submission of the C3 replay scenario (the one whose
replay fails). -/
def subB : Submission :=
  { name := "Bob", email := "bob@example.com", phone := "", product := "valves",
    message := "Second pending message.", timestamp := 2, csrfToken := "tb",
    sessionId := "sb", language := "vi" }

/-- Third queued submission of the C3 replay scenario. -/
def subC : Submission :=
  { name := "Cara", email := "cara@example.com", phone := "", product := "hoses",
    message := "Third pending message.", timestamp := 3, csrfToken := "tc",
    sessionId := "sc", language := "cn" }

/-- C3 witness: for the queue `[A, B, C]` where B fails and A, C succeed,
the attempts run in order A, B, C and the post-replay queue is exactly
`[B]` with B unchanged. -/
theorem sendPendingSubmissions_partition_witness :
    (FormHandler.sendPendingSubmissions ⟨[subA, subB, subC], [subA, subB, subC]⟩
        (fun s => s.name != "Bob")).1.pending = [subB] ∧
    (FormHandler.sendPendingSubmissions ⟨[subA, subB, subC], [subA, subB, subC]⟩
        (fun s => s.name != "Bob")).1.stored = [subB] ∧
    (FormHandler.sendPendingSubmissions ⟨[subA, subB, subC], [subA, subB, subC]⟩
        (fun s => s.name != "Bob")).2 = [subA, subB, subC] := by
  have h := sendPendingSubmissions_partition ⟨[subA, subB, subC], [subA, subB, subC]⟩
      (fun s => s.name != "Bob") rfl
  refine ⟨?_, ?_, h.2.2⟩
  · rw [h.1]
    decide
  · rw [h.2.1]
    decide
